import Mathlib

set_option maxHeartbeats 1000000

/-! Shallow embedding of `src/LSCProxy/source/AVAPIs_Client.c`.

The program relays audio and video from a TUTK-style camera transport into
two named pipes consumed by a forked ffmpeg process.  We embed the shutdown
signal handler, the two media relay loops, the setup-command sequence
`start_ipcam_stream`, the orchestration routine `thread_ConnectCCR`, and the
exit-code logic of `main` as pure functions over oracle inputs (the results
the external transport / OS calls would return), producing event traces. -/

/-! ## Signal handler (`sigpipe_handler`, lines 34-54) -/

/-- State of the two global shutdown flags `graceful_shutdown` and `sigkill`
(C ints used as booleans, both initially 0). -/
structure SigState where
  graceful_shutdown : Bool
  sigkill : Bool
deriving DecidableEq

/-- The two signals the handler is registered for in `main`. -/
inductive Sig
  | sigpipe
  | sigint
deriving DecidableEq

/-- Initial flag state at program start (both globals are 0). -/
def initSigState : SigState := ⟨false, false⟩

/-- One invocation of the C handler `sigpipe_handler`: returns the new flag
state and `some code` when the handler calls `exit(code)`.  On SIGPIPE it
only logs; on SIGINT it sets both flags if `sigkill != 1`, otherwise it
calls `exit(1)`. -/
def sigpipe_handler : Sig → SigState → SigState × Option Int
  | .sigpipe, s => (s, none)
  | .sigint, s => if s.sigkill = false then (⟨true, true⟩, none) else (s, some 1)

/-- Deliver a list of signals in order; processing stops at the first forced
exit, returning the flag state at that point and the exit code. -/
def runSignals : SigState → List Sig → SigState × Option Int
  | s, [] => (s, none)
  | s, sg :: rest =>
    match sigpipe_handler sg s with
    | (s2, none) => runSignals s2 rest
    | (s2, some c) => (s2, some c)

lemma runSignals_exit (sigs : List Sig) :
    ∀ s : SigState, s.graceful_shutdown = s.sigkill →
      ∀ s2 c, runSignals s sigs = (s2, some c) →
        c = 1 ∧ s2.graceful_shutdown = true ∧ s2.sigkill = true := by
  induction sigs with
  | nil =>
    intro s hs s2 c h
    simp [runSignals] at h
  | cons sg rest ih =>
    intro s hs s2 c h
    cases sg with
    | sigpipe =>
      simp only [runSignals, sigpipe_handler] at h
      exact ih s hs s2 c h
    | sigint =>
      by_cases hk : s.sigkill = false
      · simp only [runSignals, sigpipe_handler, hk, if_true] at h
        exact ih ⟨true, true⟩ rfl s2 c h
      · have hk2 : s.sigkill = true := by
          cases hkk : s.sigkill
          · exact absurd hkk hk
          · rfl
        simp only [runSignals, sigpipe_handler, hk2] at h
        obtain ⟨h1, h2⟩ := Prod.mk.injEq .. ▸ h
        refine ⟨(Option.some.injEq .. ▸ h2).symm, ?_, ?_⟩
        · rw [← h1, hs, hk2]
        · rw [← h1, hk2]

/-- Claim C5: the shutdown state machine is two-level.  A first SIGINT from
the initial state sets the cancellation flag and does not terminate; a
second SIGINT while the first is pending terminates with exit code 1; any
forced exit reachable from the initial state has code 1 and happens only
while the graceful flag is already set; the handler never clears the flag;
and the only state change the handler ever makes is the single transition
to `⟨true, true⟩` from a state with `sigkill` still unset. -/
theorem C5_shutdown_two_level :
    (runSignals initSigState [Sig.sigint] = (⟨true, true⟩, none)) ∧
    (runSignals initSigState [Sig.sigint, Sig.sigint] = (⟨true, true⟩, some 1)) ∧
    (∀ sigs s c, runSignals initSigState sigs = (s, some c) →
        c = 1 ∧ s.graceful_shutdown = true) ∧
    (∀ sg s, s.graceful_shutdown = true →
        ((sigpipe_handler sg s).1).graceful_shutdown = true) ∧
    (∀ sg s, (sigpipe_handler sg s).1 = s ∨
        ((sigpipe_handler sg s).1 = ⟨true, true⟩ ∧ s.sigkill = false)) := by
  refine ⟨by decide, by decide, ?_, ?_, ?_⟩
  · intro sigs s c h
    obtain ⟨h1, h2, _⟩ := runSignals_exit sigs initSigState rfl s c h
    exact ⟨h1, h2⟩
  · intro sg s hs
    cases sg with
    | sigpipe => simpa [sigpipe_handler] using hs
    | sigint =>
      by_cases hk : s.sigkill = false <;> simp [sigpipe_handler, hk, hs]
  · intro sg s
    cases sg with
    | sigpipe => exact Or.inl rfl
    | sigint =>
      by_cases hk : s.sigkill = false
      · exact Or.inr ⟨by simp [sigpipe_handler, hk], hk⟩
      · exact Or.inl (by simp [sigpipe_handler, hk])

/-- Witness for C5: the forced-exit part applied at the concrete signal list
`[SIGINT, SIGINT]`, whose run exits with code 1 from a state with the
graceful flag set. -/
theorem C5_shutdown_two_level_witness :
    (1 : Int) = 1 ∧ SigState.graceful_shutdown ⟨true, true⟩ = true :=
  C5_shutdown_two_level.2.2.1 [Sig.sigint, Sig.sigint] ⟨true, true⟩ 1 (by decide)

/-! ## Media relay loops (`thread_ReceiveAudio` lines 199-272,
`thread_ReceiveVideo` lines 285-349) -/

/-- Result of one `avRecvAudioData` call, as the audio loop discriminates it:
the three terminal codes, the lost-frame code, and a catch-all `data ret`
for every other return value (the code passes that value to `write`). -/
inductive ARecv
  | sessionClosed
  | timeout
  | invalidSID
  | lostFrame
  | data (ret : Int)
deriving DecidableEq

/-- Result of one `avRecvFrameData2` call, as the video loop discriminates
it: the not-ready code, the three terminal codes, and a catch-all
`data ret` for every other return value. -/
inductive VRecv
  | noReady
  | sessionClosed
  | timeout
  | invalidSID
  | data (ret : Int)
deriving DecidableEq

/-- Observable events of a relay loop body. -/
inductive LoopEvent
  | sleep
  | write (ret : Int)
  | logWriteFail
  | closeSink
deriving DecidableEq

/-- Oracle input for one audio-loop iteration: the `avCheckAudioBuf` result,
the receive result (consulted only when the buffer check passes), the
`write` return value, and the value of the shared `graceful_shutdown` flag
at the pre-write check (line 250) and at the post-write check (line 261). -/
structure AudioIter where
  checkBuf : Int
  recv : ARecv
  writeRet : Int
  flagPre : Bool
  flagPost : Bool
deriving DecidableEq

/-- Oracle input for one video-loop iteration: the receive result, the
`write` return value, and the shared flag at the single post-write check
(line 337).  The video loop has no pre-write flag check. -/
structure VideoIter where
  recv : VRecv
  writeRet : Int
  flagPost : Bool
deriving DecidableEq

/-- The audio relay loop body (lines 217-265), one list entry per iteration
reached: `avCheckAudioBuf < 0` breaks; `< 25` sleeps and retries; terminal
receive codes break; `AV_ER_LOSED_THIS_FRAME` skips the iteration; otherwise
the flag is checked before the write, the payload is written (a failed write
is only logged), and the flag is checked again after the write. -/
def audioLoop : List AudioIter → List LoopEvent
  | [] => []
  | it :: rest =>
    if it.checkBuf < 0 then []
    else if it.checkBuf < 25 then .sleep :: audioLoop rest
    else
      match it.recv with
      | .sessionClosed => []
      | .timeout => []
      | .invalidSID => []
      | .lostFrame => audioLoop rest
      | .data n =>
        if it.flagPre then []
        else
          .write n :: (if it.writeRet < 0 then [.logWriteFail] else []) ++
            (if it.flagPost then [] else audioLoop rest)

/-- The video relay loop body (lines 306-341): `AV_ER_DATA_NOREADY` sleeps
and retries; terminal receive codes break; any other receive result is
written to the sink (a failed write is only logged) and the shared flag is
checked only after the write. -/
def videoLoop : List VideoIter → List LoopEvent
  | [] => []
  | it :: rest =>
    match it.recv with
    | .noReady => .sleep :: videoLoop rest
    | .sessionClosed => []
    | .timeout => []
    | .invalidSID => []
    | .data n =>
      .write n :: (if it.writeRet < 0 then [.logWriteFail] else []) ++
        (if it.flagPost then [] else videoLoop rest)

/-- The audio relay thread (lines 199-272): opening the named sink fails
with `exit(EXIT_FAILURE)` (code 1); otherwise the loop runs and the sink is
closed once on exit. -/
def thread_ReceiveAudio (openFd : Int) (iters : List AudioIter) :
    Except Int (List LoopEvent) :=
  if openFd = -1 then .error 1
  else .ok (audioLoop iters ++ [.closeSink])

/-- The video relay thread (lines 285-349), analogous to the audio one. -/
def thread_ReceiveVideo (openFd : Int) (iters : List VideoIter) :
    Except Int (List LoopEvent) :=
  if openFd = -1 then .error 1
  else .ok (videoLoop iters ++ [.closeSink])

/-- Number of sink-write events in a loop trace. -/
def writeCount : List LoopEvent → Nat
  | [] => 0
  | .write _ :: rest => writeCount rest + 1
  | _ :: rest => writeCount rest

lemma audioLoop_no_write_of_flagPre (ts : List AudioIter)
    (h : ∀ j ∈ ts, j.flagPre = true) : writeCount (audioLoop ts) = 0 := by
  induction ts with
  | nil => simp [audioLoop, writeCount]
  | cons it rest ih =>
    have hit : it.flagPre = true := h it (by simp)
    have hrest : ∀ j ∈ rest, j.flagPre = true := fun j hj => h j (by simp [hj])
    by_cases h0 : it.checkBuf < 0
    · simp [audioLoop, h0, writeCount]
    · by_cases h1 : it.checkBuf < 25
      · simp [audioLoop, h0, h1, writeCount, ih hrest]
      · cases hr : it.recv with
        | sessionClosed => simp [audioLoop, h0, h1, hr, writeCount]
        | timeout => simp [audioLoop, h0, h1, hr, writeCount]
        | invalidSID => simp [audioLoop, h0, h1, hr, writeCount]
        | lostFrame => simp [audioLoop, h0, h1, hr, ih hrest]
        | data n => simp [audioLoop, h0, h1, hr, hit, writeCount]

lemma videoLoop_write_le_one_of_flagPost (vs : List VideoIter)
    (h : ∀ j ∈ vs, j.flagPost = true) : writeCount (videoLoop vs) ≤ 1 := by
  induction vs with
  | nil => simp [videoLoop, writeCount]
  | cons it rest ih =>
    have hit : it.flagPost = true := h it (by simp)
    have hrest : ∀ j ∈ rest, j.flagPost = true := fun j hj => h j (by simp [hj])
    cases hr : it.recv with
    | noReady => simp [videoLoop, hr, writeCount, ih hrest]
    | sessionClosed => simp [videoLoop, hr, writeCount]
    | timeout => simp [videoLoop, hr, writeCount]
    | invalidSID => simp [videoLoop, hr, writeCount]
    | data n =>
      by_cases hw : it.writeRet < 0 <;>
        simp [videoLoop, hr, hit, hw, writeCount]

/-- Counterexample to claim C4 as stated: in the video relay loop a receive
that succeeds while the cancellation flag is already set (so it is set at
receive time and at every later point of the iteration) is still followed by
a sink write — the video loop has no pre-write cancellation check. -/
theorem C4_counterexample :
    writeCount (videoLoop [⟨VRecv.data 7, 7, true⟩]) = 1 := by decide

/-- Claim C4 (amended): only the audio relay loop exits before the sink
write when a receive succeeds with cancellation already requested; the video
relay loop writes the payload first and exits at its post-write check, so it
performs exactly that one write. -/
theorem C4_audio_exits_before_write_video_after :
    (∀ (it : AudioIter) (ts : List AudioIter) (n : Int),
        25 ≤ it.checkBuf → it.recv = ARecv.data n → it.flagPre = true →
        audioLoop (it :: ts) = []) ∧
    (∀ (vt : VideoIter) (vs : List VideoIter) (n : Int),
        vt.recv = VRecv.data n → vt.flagPost = true →
        videoLoop (vt :: vs) =
          LoopEvent.write n ::
            (if vt.writeRet < 0 then [LoopEvent.logWriteFail] else [])) := by
  constructor
  · intro it ts n h25 hr hp
    have h0 : ¬ it.checkBuf < 0 := by omega
    have h1 : ¬ it.checkBuf < 25 := by omega
    simp [audioLoop, h0, h1, hr, hp]
  · intro vt vs n hr hp
    simp [videoLoop, hr, hp]

/-- Witness for the amended C4 at concrete iterations. -/
theorem C4_audio_exits_before_write_video_after_witness :
    audioLoop [⟨30, ARecv.data 5, 5, true, true⟩] = [] ∧
    videoLoop [⟨VRecv.data 5, 5, true⟩] =
      LoopEvent.write 5 :: (if (5 : Int) < 0 then [LoopEvent.logWriteFail] else []) :=
  ⟨C4_audio_exits_before_write_video_after.1 ⟨30, ARecv.data 5, 5, true, true⟩ [] 5
      (by decide) rfl rfl,
   C4_audio_exits_before_write_video_after.2 ⟨VRecv.data 5, 5, true⟩ [] 5 rfl rfl⟩

/-- Claim C6: after cancellation is requested, each relay loop performs at
most one further write.  The boundary iteration is the one whose post-write
check already sees the flag (its pre-write check may have missed it); every
later iteration sees the flag at every check. -/
theorem C6_at_most_one_write_after_cancel :
    (∀ (it : AudioIter) (ts : List AudioIter),
        it.flagPost = true → (∀ j ∈ ts, j.flagPre = true) →
        writeCount (audioLoop (it :: ts)) ≤ 1) ∧
    (∀ (vt : VideoIter) (vs : List VideoIter),
        vt.flagPost = true → (∀ j ∈ vs, j.flagPost = true) →
        writeCount (videoLoop (vt :: vs)) ≤ 1) := by
  constructor
  · intro it ts hpost hts
    by_cases h0 : it.checkBuf < 0
    · simp [audioLoop, h0, writeCount]
    · by_cases h1 : it.checkBuf < 25
      · simp [audioLoop, h0, h1, writeCount, audioLoop_no_write_of_flagPre ts hts]
      · cases hr : it.recv with
        | sessionClosed => simp [audioLoop, h0, h1, hr, writeCount]
        | timeout => simp [audioLoop, h0, h1, hr, writeCount]
        | invalidSID => simp [audioLoop, h0, h1, hr, writeCount]
        | lostFrame =>
          simp [audioLoop, h0, h1, hr, audioLoop_no_write_of_flagPre ts hts]
        | data n =>
          by_cases hp : it.flagPre
          · simp [audioLoop, h0, h1, hr, hp, writeCount]
          · by_cases hw : it.writeRet < 0 <;>
              simp [audioLoop, h0, h1, hr, hp, hpost, hw, writeCount]
  · intro vt vs hpost hvs
    cases hr : vt.recv with
    | noReady =>
      simp [videoLoop, hr, writeCount]
      exact videoLoop_write_le_one_of_flagPost vs hvs
    | sessionClosed => simp [videoLoop, hr, writeCount]
    | timeout => simp [videoLoop, hr, writeCount]
    | invalidSID => simp [videoLoop, hr, writeCount]
    | data n =>
      by_cases hw : vt.writeRet < 0 <;>
        simp [videoLoop, hr, hpost, hw, writeCount]

/-- Witness for C6 at concrete one-iteration traces whose post-write check
sees the flag. -/
theorem C6_at_most_one_write_after_cancel_witness :
    writeCount (audioLoop [⟨30, ARecv.data 5, 5, false, true⟩]) ≤ 1 ∧
    writeCount (videoLoop [⟨VRecv.data 5, 5, true⟩]) ≤ 1 :=
  ⟨C6_at_most_one_write_after_cancel.1 ⟨30, ARecv.data 5, 5, false, true⟩ [] rfl
      (by simp),
   C6_at_most_one_write_after_cancel.2 ⟨VRecv.data 5, 5, true⟩ [] rfl (by simp)⟩

/-- Claim C8: in the audio relay loop, a receive returning
`AV_ER_LOSED_THIS_FRAME` produces no sink write and does not terminate the
loop — the iteration contributes no events and polling continues with the
rest of the run. -/
theorem C8_lost_frame_skips_without_write :
    ∀ (it : AudioIter) (ts : List AudioIter),
      it.recv = ARecv.lostFrame → 25 ≤ it.checkBuf →
      audioLoop (it :: ts) = audioLoop ts := by
  intro it ts hr h25
  have h0 : ¬ it.checkBuf < 0 := by omega
  have h1 : ¬ it.checkBuf < 25 := by omega
  simp [audioLoop, h0, h1, hr]

/-- Witness for C8 at a concrete lost-frame iteration. -/
theorem C8_lost_frame_skips_without_write_witness :
    audioLoop [⟨30, ARecv.lostFrame, 0, false, false⟩] = audioLoop [] :=
  C8_lost_frame_skips_without_write ⟨30, ARecv.lostFrame, 0, false, false⟩ []
    rfl (by decide)

/-! ## Setup commands (`start_ipcam_stream`, lines 352-395) and the
orchestration routine (`thread_ConnectCCR`, lines 397-509) -/

/-- The IOCtrl commands the program sends, identified by the opcode used at
each call site (`0x5000`, `IOTYPE_USER_IPCAM_SETSTREAMCTRL_REQ`,
`IOTYPE_USER_IPCAM_START`, `IOTYPE_USER_IPCAM_AUDIOSTART`,
`IOTYPE_USER_IPCAM_STOP`). -/
inductive CmdId
  | nightVisionOff
  | setStreamQuality
  | startVideo
  | startAudio
  | stopCamera
deriving DecidableEq

/-- The fixed order of the four setup commands. -/
def setupOrder : List CmdId :=
  [.nightVisionOff, .setStreamQuality, .startVideo, .startAudio]

/-- `start_ipcam_stream` over an oracle `send` giving each `avSendIOCtrl`
return value: issues the four setup commands in order, aborting at the first
one that returns a negative value (returning 0), and returns 1 when all four
succeed.  The second component records the commands actually issued. -/
def start_ipcam_stream (send : CmdId → Int) : Int × List CmdId :=
  if send .nightVisionOff < 0 then (0, [.nightVisionOff])
  else if send .setStreamQuality < 0 then (0, [.nightVisionOff, .setStreamQuality])
  else if send .startVideo < 0 then
    (0, [.nightVisionOff, .setStreamQuality, .startVideo])
  else if send .startAudio < 0 then
    (0, [.nightVisionOff, .setStreamQuality, .startVideo, .startAudio])
  else (1, [.nightVisionOff, .setStreamQuality, .startVideo, .startAudio])

/-- Oracle inputs for one run of `thread_ConnectCCR`: the `fork` result, the
two `open` results on the named pipes, `IOTC_Get_SessionID`,
`IOTC_Connect_ByUID_Parallel` and `avClientStart2` results, whether each of
the three `pthread_create` calls succeeds, and the `avSendIOCtrl` oracle. -/
structure CcrEnv where
  forkResult : Int
  openAudioFd : Int
  openVideoFd : Int
  tmpSID : Int
  connectSID : Int
  avIndex : Int
  createVideoOk : Bool
  createAudioOk : Bool
  createBufOk : Bool
  send : CmdId → Int

/-- Observable events of the orchestration routine, in program order. -/
inductive CcrEvent
  | forkConsumer
  | openSinkAudio
  | openSinkVideo
  | getSession
  | connect
  | startStream
  | sendCmd (c : CmdId)
  | createVideoThread
  | createAudioThread
  | createBufThread
  | joinLoops
  | closeSinkVideo
  | closeSinkAudio
  | killConsumer
  | avClientExit
  | avClientStop
  | sessionClose
  | exitProcess (code : Int)
  | ret
deriving DecidableEq

/-- The teardown tail of `thread_ConnectCCR` (lines 487-508): the stop
IOCtrl is sent; if it returns a negative value the routine returns
immediately (lines 490-494), otherwise the pipes are closed (video then
audio), the consumer process is killed, and the stream and session handles
are released. -/
def ccrTeardown (env : CcrEnv) : List CcrEvent :=
  .sendCmd .stopCamera ::
    (if env.send .stopCamera < 0 then [.ret]
     else [.closeSinkVideo, .closeSinkAudio, .killConsumer,
           .avClientExit, .avClientStop, .sessionClose, .ret])

/-- The streaming phase of `thread_ConnectCCR` (lines 455-485): only when
`start_ipcam_stream` returned nonzero are the video, audio and buffer-clean
threads created (a failed `pthread_create` calls `exit(-1)`) and joined;
in every surviving case control falls through to the teardown tail. -/
def ccrStreamPhase (env : CcrEnv) : List CcrEvent :=
  if (start_ipcam_stream env.send).1 ≠ 0 then
    .createVideoThread ::
      (if env.createVideoOk = false then [.exitProcess (-1)]
       else .createAudioThread ::
         (if env.createAudioOk = false then [.exitProcess (-1)]
          else .createBufThread ::
            (if env.createBufOk = false then [.exitProcess (-1)]
             else .joinLoops :: ccrTeardown env)))
  else ccrTeardown env

/-- The whole parent-side trace of `thread_ConnectCCR` (lines 397-509):
`fork` happens first, then both pipes are opened read-write (a failed open
calls `exit(EXIT_FAILURE)`, i.e. code 1), a failed fork also exits; then the
session slot, the connection and the AV stream are acquired, each failure
returning immediately with no cleanup; then the setup commands are issued
and the streaming phase and teardown run. -/
def ccrRun (env : CcrEnv) : List CcrEvent :=
  .forkConsumer :: .openSinkAudio ::
    (if env.openAudioFd = -1 then [.exitProcess 1]
     else .openSinkVideo ::
       (if env.openVideoFd = -1 then [.exitProcess 1]
        else if env.forkResult = -1 then [.exitProcess 1]
        else .getSession ::
          (if env.tmpSID < 0 then [.ret]
           else .connect ::
             (if env.connectSID < 0 then [.ret]
              else .startStream ::
                (if env.avIndex < 0 then [.ret]
                 else ((start_ipcam_stream env.send).2.map .sendCmd) ++
                   ccrStreamPhase env)))))

/-- Number of occurrences of an event in a trace. -/
def countE (e : CcrEvent) : List CcrEvent → Nat
  | [] => 0
  | x :: xs => (if x = e then 1 else 0) + countE e xs

/-- The run reaches the stop command: both opens and the fork succeeded, the
session slot, connection and stream were acquired, and if the setup commands
all succeeded then the three thread creations succeeded as well. -/
def ccrReachesStop (env : CcrEnv) : Prop :=
  env.openAudioFd ≠ -1 ∧ env.openVideoFd ≠ -1 ∧ env.forkResult ≠ -1 ∧
  0 ≤ env.tmpSID ∧ 0 ≤ env.connectSID ∧ 0 ≤ env.avIndex ∧
  ((start_ipcam_stream env.send).1 ≠ 0 →
    env.createVideoOk = true ∧ env.createAudioOk = true ∧ env.createBufOk = true)

instance (env : CcrEnv) : Decidable (ccrReachesStop env) := by
  unfold ccrReachesStop
  infer_instance

lemma countE_append (e : CcrEvent) (l1 l2 : List CcrEvent) :
    countE e (l1 ++ l2) = countE e l1 + countE e l2 := by
  induction l1 with
  | nil => simp [countE]
  | cons x xs ih => simp [countE, ih]; omega

lemma countE_map_sendCmd (e : CcrEvent) (he : ∀ c, e ≠ CcrEvent.sendCmd c)
    (l : List CmdId) : countE e (l.map CcrEvent.sendCmd) = 0 := by
  induction l with
  | nil => simp [countE]
  | cons c cs ih =>
    have : ¬ (CcrEvent.sendCmd c = e) := fun h => he c h.symm
    simp [countE, this, ih]

lemma ccrTeardown_count_le_one (env : CcrEnv) (e : CcrEvent) :
    countE e (ccrTeardown env) ≤ 1 := by
  unfold ccrTeardown
  split <;> cases e <;> simp [countE] <;> split_ifs <;> omega

lemma ccrStreamPhase_count_le_one (env : CcrEnv) (e : CcrEvent)
    (h1 : e ≠ CcrEvent.createVideoThread) (h2 : e ≠ CcrEvent.createAudioThread)
    (h3 : e ≠ CcrEvent.createBufThread) (h4 : e ≠ CcrEvent.joinLoops) :
    countE e (ccrStreamPhase env) ≤ 1 := by
  have ht := ccrTeardown_count_le_one env e
  unfold ccrStreamPhase
  split_ifs <;>
    simp [countE, Ne.symm h1, Ne.symm h2, Ne.symm h3, Ne.symm h4] <;>
    first
    | omega
    | exact ht
    | (split_ifs <;> omega)

lemma ccrRun_count_le_one (env : CcrEnv) (e : CcrEvent)
    (h1 : e ≠ CcrEvent.createVideoThread) (h2 : e ≠ CcrEvent.createAudioThread)
    (h3 : e ≠ CcrEvent.createBufThread) (h4 : e ≠ CcrEvent.joinLoops)
    (h5 : e ≠ CcrEvent.forkConsumer) (h6 : e ≠ CcrEvent.openSinkAudio)
    (h7 : e ≠ CcrEvent.openSinkVideo) (h8 : e ≠ CcrEvent.getSession)
    (h9 : e ≠ CcrEvent.connect) (h10 : e ≠ CcrEvent.startStream)
    (h11 : ∀ c, e ≠ CcrEvent.sendCmd c) :
    countE e (ccrRun env) ≤ 1 := by
  have hs := ccrStreamPhase_count_le_one env e h1 h2 h3 h4
  have hm := countE_map_sendCmd e h11 (start_ipcam_stream env.send).2
  unfold ccrRun
  split_ifs <;>
    simp [countE, countE_append, hm, Ne.symm h5, Ne.symm h6, Ne.symm h7,
      Ne.symm h8, Ne.symm h9, Ne.symm h10] <;>
    first
    | omega
    | exact hs
    | (split_ifs <;> omega)

lemma ccrTeardown_mem (env : CcrEnv) (e : CcrEvent)
    (he : e = CcrEvent.closeSinkVideo ∨ e = CcrEvent.closeSinkAudio ∨
      e = CcrEvent.killConsumer ∨ e = CcrEvent.avClientExit ∨
      e = CcrEvent.avClientStop ∨ e = CcrEvent.sessionClose) :
    (e ∈ ccrTeardown env ↔ 0 ≤ env.send CmdId.stopCamera) := by
  rcases he with h | h | h | h | h | h <;> subst h <;>
    (unfold ccrTeardown; split_ifs with hs <;> simp <;> omega)

lemma ccrStreamPhase_mem (env : CcrEnv) (e : CcrEvent)
    (he : e = CcrEvent.closeSinkVideo ∨ e = CcrEvent.closeSinkAudio ∨
      e = CcrEvent.killConsumer ∨ e = CcrEvent.avClientExit ∨
      e = CcrEvent.avClientStop ∨ e = CcrEvent.sessionClose) :
    (e ∈ ccrStreamPhase env ↔
      (((start_ipcam_stream env.send).1 ≠ 0 →
          env.createVideoOk = true ∧ env.createAudioOk = true ∧
          env.createBufOk = true) ∧
        0 ≤ env.send CmdId.stopCamera)) := by
  have ht := ccrTeardown_mem env e he
  unfold ccrStreamPhase
  rcases he with h | h | h | h | h | h <;> subst h <;>
    split_ifs with hs hv ha hb <;> simp_all

lemma ccrRun_mem (env : CcrEnv) (e : CcrEvent)
    (he : e = CcrEvent.closeSinkVideo ∨ e = CcrEvent.closeSinkAudio ∨
      e = CcrEvent.killConsumer ∨ e = CcrEvent.avClientExit ∨
      e = CcrEvent.avClientStop ∨ e = CcrEvent.sessionClose) :
    (e ∈ ccrRun env ↔ ccrReachesStop env ∧ 0 ≤ env.send CmdId.stopCamera) := by
  have hp := ccrStreamPhase_mem env e he
  unfold ccrRun ccrReachesStop
  rcases he with h | h | h | h | h | h <;> subst h <;>
    split_ifs with h1 h2 h3 h4 h5 h6 <;> simp_all

lemma ccrTeardown_ok (env : CcrEnv) (h : 0 ≤ env.send CmdId.stopCamera) :
    ccrTeardown env =
      [CcrEvent.sendCmd CmdId.stopCamera, CcrEvent.closeSinkVideo,
       CcrEvent.closeSinkAudio, CcrEvent.killConsumer, CcrEvent.avClientExit,
       CcrEvent.avClientStop, CcrEvent.sessionClose, CcrEvent.ret] := by
  unfold ccrTeardown
  rw [if_neg (by omega)]

lemma ccrRun_teardown_suffix (env : CcrEnv) (h : ccrReachesStop env) :
    ∃ p, ccrRun env = p ++ ccrTeardown env := by
  obtain ⟨h1, h2, h3, h4, h5, h6, h7⟩ := h
  unfold ccrRun ccrStreamPhase
  rw [if_neg h1, if_neg h2, if_neg h3, if_neg (by omega : ¬ env.tmpSID < 0),
    if_neg (by omega : ¬ env.connectSID < 0), if_neg (by omega : ¬ env.avIndex < 0)]
  by_cases hs : (start_ipcam_stream env.send).1 ≠ 0
  · obtain ⟨hv, ha, hb⟩ := h7 hs
    rw [if_pos hs, if_neg (by simp [hv]), if_neg (by simp [ha]),
      if_neg (by simp [hb])]
    refine ⟨[CcrEvent.forkConsumer, CcrEvent.openSinkAudio, CcrEvent.openSinkVideo,
      CcrEvent.getSession, CcrEvent.connect, CcrEvent.startStream] ++
      (start_ipcam_stream env.send).2.map CcrEvent.sendCmd ++
      [CcrEvent.createVideoThread, CcrEvent.createAudioThread,
       CcrEvent.createBufThread, CcrEvent.joinLoops], ?_⟩
    simp
  · rw [if_neg hs]
    refine ⟨[CcrEvent.forkConsumer, CcrEvent.openSinkAudio, CcrEvent.openSinkVideo,
      CcrEvent.getSession, CcrEvent.connect, CcrEvent.startStream] ++
      (start_ipcam_stream env.send).2.map CcrEvent.sendCmd, ?_⟩
    simp

/-- Run on which the session-slot acquisition fails: the consumer has been
forked and both sinks opened, but the routine returns with no teardown. -/
def envC1bad : CcrEnv := ⟨100, 3, 4, -1, 0, 0, true, true, true, fun _ => 0⟩

/-- Counterexample to claim C1 as stated: when `IOTC_Get_SessionID` fails,
the routine returns immediately; the already-forked consumer process is
never terminated and the already-opened sinks are never closed, so the
teardown sequence is not executed for the resources actually acquired. -/
theorem C1_counterexample :
    CcrEvent.forkConsumer ∈ ccrRun envC1bad ∧
    CcrEvent.openSinkAudio ∈ ccrRun envC1bad ∧
    CcrEvent.killConsumer ∉ ccrRun envC1bad ∧
    CcrEvent.closeSinkAudio ∉ ccrRun envC1bad ∧
    CcrEvent.sessionClose ∉ ccrRun envC1bad := by decide

/-- Claim C1 (amended): in every run of the orchestration routine each
teardown action (sink close, consumer kill, stream/session release) is
executed at most once — no resource is ever released twice — but teardown is
not reached on early failures: the consumer kill and the session release
occur exactly when the opens, the fork, the session slot, the connection and
the stream acquisition all succeed, any required thread creations succeed,
and the stop-stream command itself succeeds. -/
theorem C1_teardown_at_most_once :
    ∀ env : CcrEnv,
      countE CcrEvent.closeSinkVideo (ccrRun env) ≤ 1 ∧
      countE CcrEvent.closeSinkAudio (ccrRun env) ≤ 1 ∧
      countE CcrEvent.killConsumer (ccrRun env) ≤ 1 ∧
      countE CcrEvent.avClientExit (ccrRun env) ≤ 1 ∧
      countE CcrEvent.avClientStop (ccrRun env) ≤ 1 ∧
      countE CcrEvent.sessionClose (ccrRun env) ≤ 1 ∧
      (CcrEvent.killConsumer ∈ ccrRun env ↔
        ccrReachesStop env ∧ 0 ≤ env.send CmdId.stopCamera) ∧
      (CcrEvent.sessionClose ∈ ccrRun env ↔
        ccrReachesStop env ∧ 0 ≤ env.send CmdId.stopCamera) := by
  intro env
  refine ⟨?_, ?_, ?_, ?_, ?_, ?_, ?_, ?_⟩
  · exact ccrRun_count_le_one env _ (by simp) (by simp) (by simp) (by simp)
      (by simp) (by simp) (by simp) (by simp) (by simp) (by simp)
      (fun c => by simp)
  · exact ccrRun_count_le_one env _ (by simp) (by simp) (by simp) (by simp)
      (by simp) (by simp) (by simp) (by simp) (by simp) (by simp)
      (fun c => by simp)
  · exact ccrRun_count_le_one env _ (by simp) (by simp) (by simp) (by simp)
      (by simp) (by simp) (by simp) (by simp) (by simp) (by simp)
      (fun c => by simp)
  · exact ccrRun_count_le_one env _ (by simp) (by simp) (by simp) (by simp)
      (by simp) (by simp) (by simp) (by simp) (by simp) (by simp)
      (fun c => by simp)
  · exact ccrRun_count_le_one env _ (by simp) (by simp) (by simp) (by simp)
      (by simp) (by simp) (by simp) (by simp) (by simp) (by simp)
      (fun c => by simp)
  · exact ccrRun_count_le_one env _ (by simp) (by simp) (by simp) (by simp)
      (by simp) (by simp) (by simp) (by simp) (by simp) (by simp)
      (fun c => by simp)
  · exact ccrRun_mem env _ (by simp)
  · exact ccrRun_mem env _ (by simp)

/-- Environment of a fully successful run, used to instantiate C1. -/
def envC1ok : CcrEnv := ⟨100, 3, 4, 0, 0, 0, true, true, true, fun _ => 0⟩

/-- Witness for C1 at a concrete successful run. -/
theorem C1_teardown_at_most_once_witness :
    countE CcrEvent.killConsumer (ccrRun envC1ok) ≤ 1 :=
  (C1_teardown_at_most_once envC1ok).2.2.1

/-- Run on which everything succeeds except the stop-stream command. -/
def envC2bad : CcrEnv :=
  ⟨100, 3, 4, 0, 0, 0, true, true, true,
    fun c => if c = CmdId.stopCamera then -1 else 0⟩

/-- Counterexample to claim C2 as stated: when the stop-stream IOCtrl fails,
the routine returns immediately (lines 490-494), so the sinks are not
closed, the consumer process is not terminated, and the stream and session
handles are not released — the failure is propagated, not merely logged. -/
theorem C2_counterexample :
    CcrEvent.sendCmd CmdId.stopCamera ∈ ccrRun envC2bad ∧
    envC2bad.send CmdId.stopCamera < 0 ∧
    CcrEvent.closeSinkVideo ∉ ccrRun envC2bad ∧
    CcrEvent.closeSinkAudio ∉ ccrRun envC2bad ∧
    CcrEvent.killConsumer ∉ ccrRun envC2bad ∧
    CcrEvent.sessionClose ∉ ccrRun envC2bad := by decide

/-- Claim C2 (amended): the stop-stream command is not best-effort — if it
fails, the routine returns at once and none of the remaining teardown steps
run; when it succeeds, the remaining teardown executes in the order
stream-stop, sink-close, consumer-process-kill, stream/session-release. -/
theorem C2_stop_failure_skips_rest_of_teardown :
    ∀ env : CcrEnv,
      (env.send CmdId.stopCamera < 0 →
        CcrEvent.closeSinkVideo ∉ ccrRun env ∧
        CcrEvent.closeSinkAudio ∉ ccrRun env ∧
        CcrEvent.killConsumer ∉ ccrRun env ∧
        CcrEvent.avClientExit ∉ ccrRun env ∧
        CcrEvent.avClientStop ∉ ccrRun env ∧
        CcrEvent.sessionClose ∉ ccrRun env) ∧
      (ccrReachesStop env → 0 ≤ env.send CmdId.stopCamera →
        ∃ p, ccrRun env = p ++
          [CcrEvent.sendCmd CmdId.stopCamera, CcrEvent.closeSinkVideo,
           CcrEvent.closeSinkAudio, CcrEvent.killConsumer, CcrEvent.avClientExit,
           CcrEvent.avClientStop, CcrEvent.sessionClose, CcrEvent.ret]) := by
  intro env
  constructor
  · intro hstop
    have hmem : ∀ e, (e = CcrEvent.closeSinkVideo ∨ e = CcrEvent.closeSinkAudio ∨
        e = CcrEvent.killConsumer ∨ e = CcrEvent.avClientExit ∨
        e = CcrEvent.avClientStop ∨ e = CcrEvent.sessionClose) →
        e ∉ ccrRun env := by
      intro e he hmem
      have := (ccrRun_mem env e he).1 hmem
      omega
    exact ⟨hmem _ (by simp), hmem _ (by simp), hmem _ (by simp),
      hmem _ (by simp), hmem _ (by simp), hmem _ (by simp)⟩
  · intro hreach hstop
    obtain ⟨p, hp⟩ := ccrRun_teardown_suffix env hreach
    exact ⟨p, by rw [hp, ccrTeardown_ok env hstop]⟩

/-- Run on which everything, including the stop-stream command, succeeds. -/
def envC2ok : CcrEnv := ⟨100, 3, 4, 0, 0, 0, true, true, true, fun _ => 0⟩

/-- Witness for C2 at concrete runs: a failing stop command leaves the
consumer running, and a successful one is followed by the full ordered
teardown suffix. -/
theorem C2_stop_failure_skips_rest_of_teardown_witness :
    CcrEvent.killConsumer ∉ ccrRun envC2bad ∧
    ∃ p, ccrRun envC2ok = p ++
      [CcrEvent.sendCmd CmdId.stopCamera, CcrEvent.closeSinkVideo,
       CcrEvent.closeSinkAudio, CcrEvent.killConsumer, CcrEvent.avClientExit,
       CcrEvent.avClientStop, CcrEvent.sessionClose, CcrEvent.ret] :=
  ⟨((C2_stop_failure_skips_rest_of_teardown envC2bad).1 (by decide)).2.2.1,
   (C2_stop_failure_skips_rest_of_teardown envC2ok).2 (by decide) (by decide)⟩

/-- Run on which the connection to the device fails. -/
def envC3bad : CcrEnv := ⟨100, 3, 4, 0, -1, 0, true, true, true, fun _ => 0⟩

/-- Counterexample to claim C3 as stated: on a run where the connect fails,
no setup command was ever issued and the stream was never started, yet the
external consumer process was already forked — it is not the case that the
consumer starts only after the setup commands succeed. -/
theorem C3_counterexample :
    CcrEvent.forkConsumer ∈ ccrRun envC3bad ∧
    CcrEvent.sendCmd CmdId.nightVisionOff ∉ ccrRun envC3bad ∧
    CcrEvent.startStream ∉ ccrRun envC3bad ∧
    CcrEvent.createVideoThread ∉ ccrRun envC3bad := by decide

/-- Claim C3 (amended): the external consumer process is forked first,
unconditionally, as the very first action of the orchestration routine —
before the sinks are opened there, before session-slot acquisition, connect,
stream start and the setup commands — so it is started even when any of
those later steps fails.  (It is thus always started before the relay loops
are created.) -/
theorem C3_consumer_forked_first :
    ∀ env : CcrEnv, (ccrRun env).head? = some CcrEvent.forkConsumer := by
  intro env
  rfl

/-- Witness for C3 at a concrete run. -/
theorem C3_consumer_forked_first_witness :
    (ccrRun envC3bad).head? = some CcrEvent.forkConsumer :=
  C3_consumer_forked_first envC3bad

lemma start_result_cases (send : CmdId → Int) :
    (start_ipcam_stream send).1 = 0 ∨ (start_ipcam_stream send).1 = 1 := by
  unfold start_ipcam_stream
  split_ifs <;> simp

/-- Claim C7: the four setup commands are issued strictly in the fixed order
(the issued commands always form an initial segment of that order), the
sequence succeeds exactly when all four `avSendIOCtrl` calls return
non-negative values, and the relay and buffer-maintenance threads are
created only on runs where the whole sequence succeeded — a failed command
aborts the sequence and no partial start reaches the streaming phase. -/
theorem C7_setup_commands_strict_sequence :
    (∀ send : CmdId → Int, ∃ t, setupOrder = (start_ipcam_stream send).2 ++ t) ∧
    (∀ send : CmdId → Int,
      ((start_ipcam_stream send).1 = 1 ↔
        0 ≤ send CmdId.nightVisionOff ∧ 0 ≤ send CmdId.setStreamQuality ∧
        0 ≤ send CmdId.startVideo ∧ 0 ≤ send CmdId.startAudio)) ∧
    (∀ env : CcrEnv,
      (CcrEvent.createVideoThread ∈ ccrRun env ∨
       CcrEvent.createAudioThread ∈ ccrRun env ∨
       CcrEvent.createBufThread ∈ ccrRun env) →
      (start_ipcam_stream env.send).1 = 1) := by
  refine ⟨?_, ?_, ?_⟩
  · intro send
    unfold start_ipcam_stream setupOrder
    split_ifs <;> exact ⟨_, rfl⟩
  · intro send
    unfold start_ipcam_stream
    split_ifs <;> simp <;> omega
  · intro env h
    rcases start_result_cases env.send with h0 | h1
    · exfalso
      have hsp : ∀ e, (e = CcrEvent.createVideoThread ∨
          e = CcrEvent.createAudioThread ∨ e = CcrEvent.createBufThread) →
          e ∉ ccrStreamPhase env := by
        intro e he hmem
        revert hmem
        unfold ccrStreamPhase
        rw [if_neg (by omega : ¬ (start_ipcam_stream env.send).1 ≠ 0)]
        unfold ccrTeardown
        rcases he with h | h | h <;> subst h <;> split_ifs <;> simp
      have hrun : ∀ e, (e = CcrEvent.createVideoThread ∨
          e = CcrEvent.createAudioThread ∨ e = CcrEvent.createBufThread) →
          e ∈ ccrRun env → e ∈ ccrStreamPhase env := by
        intro e he
        rcases he with h | h | h <;> subst h <;>
          (unfold ccrRun
           split_ifs <;> intro hmem <;> simp at hmem <;> exact hmem)
      rcases h with h | h | h
      · exact hsp _ (by simp) (hrun _ (by simp) h)
      · exact hsp _ (by simp) (hrun _ (by simp) h)
      · exact hsp _ (by simp) (hrun _ (by simp) h)
    · exact h1

/-- Run used to instantiate C7: all setup commands succeed. -/
def envC7ok : CcrEnv := ⟨100, 3, 4, 0, 0, 0, true, true, true, fun _ => 0⟩

/-- Witness for C7: on a concrete run that creates the video thread, the
setup sequence had succeeded. -/
theorem C7_setup_commands_strict_sequence_witness :
    (start_ipcam_stream envC7ok.send).1 = 1 :=
  C7_setup_commands_strict_sequence.2.2 envC7ok (Or.inl (by decide))

/-! ## `main` (lines 511-576) -/

/-- Oracle inputs for `main`: the argument count, whether `IOTC_Initialize2`
returned `IOTC_ER_NoERROR`, and whether the `pthread_create` of the
orchestration thread succeeded. -/
structure MainEnv where
  argc : Nat
  initOk : Bool
  threadCreateOk : Bool
deriving DecidableEq

/-- The exit code of `main`: `-1` for a missing argument (lines 519-524),
`0` when `IOTC_Initialize2` fails (lines 528-534), `-1` via `exit(-1)` when
the orchestration thread cannot be created (lines 565-569), and `0` on the
normal path (line 575). -/
def mainRun (env : MainEnv) : Int :=
  if env.argc < 2 then -1
  else if env.initOk = false then 0
  else if env.threadCreateOk = false then -1
  else 0

/-- Counterexample to claim C9 as stated: on a transport initialization
error (with a valid argument list) the process exits with code 0, not -1 —
`main` prints the diagnostic and returns 0 at line 533. -/
theorem C9_counterexample :
    mainRun ⟨2, false, true⟩ = 0 ∧ (0 : Int) ≠ -1 := by decide

/-- Claim C9 (amended): the process exits with code -1 on an argument error
and on failure to create the orchestration thread; with code 0 on a
transport initialization error and on a normal run even if streaming never
starts; forced shutdown exits with code 1, but code 1 is also produced when
a relay loop fails to open its sink (`exit(EXIT_FAILURE)`). -/
theorem C9_exit_codes :
    ∀ env : MainEnv,
      (env.argc < 2 → mainRun env = -1) ∧
      (2 ≤ env.argc → env.initOk = false → mainRun env = 0) ∧
      (2 ≤ env.argc → env.initOk = true → env.threadCreateOk = false →
        mainRun env = -1) ∧
      (2 ≤ env.argc → env.initOk = true → env.threadCreateOk = true →
        mainRun env = 0) ∧
      (∀ sigs s c, runSignals initSigState sigs = (s, some c) → c = 1) ∧
      (∀ iters, thread_ReceiveAudio (-1) iters = Except.error 1) := by
  intro env
  refine ⟨?_, ?_, ?_, ?_, ?_, ?_⟩
  · intro h; simp [mainRun, h]
  · intro h1 h2; simp [mainRun, h2]; omega
  · intro h1 h2 h3; simp [mainRun, h2, h3]
  · intro h1 h2 h3; simp [mainRun, h2, h3]; omega
  · intro sigs s c h
    exact (runSignals_exit sigs initSigState rfl s c h).1
  · intro iters; simp [thread_ReceiveAudio]

/-- Witness for C9 at concrete inputs: missing argument gives -1,
initialization failure gives 0, forced shutdown gives 1. -/
theorem C9_exit_codes_witness :
    mainRun ⟨1, true, true⟩ = -1 ∧ mainRun ⟨2, false, true⟩ = 0 ∧ (1 : Int) = 1 :=
  ⟨(C9_exit_codes ⟨1, true, true⟩).1 (by decide),
   (C9_exit_codes ⟨2, false, true⟩).2.1 (by decide) rfl,
   (C9_exit_codes ⟨2, true, true⟩).2.2.2.2.1 [Sig.sigint, Sig.sigint]
     ⟨true, true⟩ 1 (by decide)⟩

/-- Claim C10: a relay loop (or the orchestration thread) that cannot open
its named sink terminates the whole process with failure status 1
(`exit(EXIT_FAILURE)`), whereas a failed sink write is only logged: the loop
emits the write and the log event and continues with the next iteration. -/
theorem C10_unopenable_sink_fatal_write_failure_not :
    (∀ iters, thread_ReceiveAudio (-1) iters = Except.error 1) ∧
    (∀ iters, thread_ReceiveVideo (-1) iters = Except.error 1) ∧
    (∀ env : CcrEnv, env.openAudioFd = -1 → CcrEvent.exitProcess 1 ∈ ccrRun env) ∧
    (∀ env : CcrEnv, env.openVideoFd = -1 → CcrEvent.exitProcess 1 ∈ ccrRun env) ∧
    (∀ (it : AudioIter) (ts : List AudioIter) (n : Int),
      25 ≤ it.checkBuf → it.recv = ARecv.data n → it.writeRet < 0 →
      it.flagPre = false → it.flagPost = false →
      audioLoop (it :: ts) =
        LoopEvent.write n :: LoopEvent.logWriteFail :: audioLoop ts) ∧
    (∀ (vt : VideoIter) (vs : List VideoIter) (n : Int),
      vt.recv = VRecv.data n → vt.writeRet < 0 → vt.flagPost = false →
      videoLoop (vt :: vs) =
        LoopEvent.write n :: LoopEvent.logWriteFail :: videoLoop vs) := by
  refine ⟨?_, ?_, ?_, ?_, ?_, ?_⟩
  · intro iters; simp [thread_ReceiveAudio]
  · intro iters; simp [thread_ReceiveVideo]
  · intro env h
    unfold ccrRun
    split_ifs <;> simp_all
  · intro env h
    unfold ccrRun
    split_ifs <;> simp_all
  · intro it ts n h25 hr hw hp hq
    have h0 : ¬ it.checkBuf < 0 := by omega
    have h1 : ¬ it.checkBuf < 25 := by omega
    simp [audioLoop, h0, h1, hr, hw, hp, hq]
  · intro vt vs n hr hw hq
    simp [videoLoop, hr, hw, hq]

/-- Witness for C10 at concrete inputs. -/
theorem C10_unopenable_sink_fatal_write_failure_not_witness :
    thread_ReceiveAudio (-1) [] = Except.error 1 ∧
    audioLoop [⟨30, ARecv.data 9, -5, false, false⟩] =
      LoopEvent.write 9 :: LoopEvent.logWriteFail :: audioLoop [] :=
  ⟨C10_unopenable_sink_fatal_write_failure_not.1 [],
   C10_unopenable_sink_fatal_write_failure_not.2.2.2.2.1
     ⟨30, ARecv.data 9, -5, false, false⟩ [] 9 (by decide) rfl (by decide)
     rfl rfl⟩
